import Mathlib

/-!
Verification of the fund-returns calculator against its specification.

The development shallowly embeds the JavaScript sources:
* `src/static/utils.js` — `DateUtils.yearsBetween` and the `FinanceUtils`
  metrics library (`calculateIRR`, `calculateNPV`, `calculateDerivativeNPV`,
  `calculateDPI`, `calculateAnnualizedReturn`);
* `src/static/app.js` — the form handlers `saveBasicParams` and `calculate`;
* the charts module (`safeCalculatePercentage`, `processCashFlowData`).

JavaScript numbers are modelled as exact rationals (`ℚ`); `parseFloat` /
`parseInt` results that may be `NaN` are modelled as `Option`; JavaScript
date values are epoch milliseconds (`ℤ`).  The server-side Python backend
(Payback Analyzer) is not part of the repository snapshot; the definitions
for it are modelled from the specification and say so in their doc comments.
-/

namespace Fund

/-- A cash-flow entry as consumed by `FinanceUtils.calculateIRR` in
`src/static/utils.js`: a date (epoch milliseconds, the numeric value of
`new Date(flow.date)`) and an amount. -/
structure CashFlow where
  date : ℤ
  amount : ℚ
deriving DecidableEq

/-- Milliseconds per 365.25-day year, the divisor `1000*60*60*24*365.25`
used by `DateUtils.yearsBetween`. -/
def msPerYear : ℚ := 1000 * 60 * 60 * 24 * (365.25 : ℚ)

/-- `DateUtils.yearsBetween(startDate, endDate)`:
`(end - start) / (1000*60*60*24*365.25)`. -/
def yearsBetween (startDate endDate : ℤ) : ℚ :=
  ((endDate - startDate : ℤ) : ℚ) / msPerYear

/-- Rational model of JavaScript `Math.pow` as applied to year offsets in
`utils.js`.  It is exact whenever the exponent is an integer (the only case
exercised by the claims, where flows sit at whole-year offsets); a
non-integer exponent generally produces an irrational real, which has no
rational counterpart, so the model maps that case to 0. -/
def mathPow (base expt : ℚ) : ℚ :=
  if expt.den = 1 then base ^ expt.num else 0

/-- A dated flow after the preprocessing step inside `calculateIRR`: the
amount together with the fractional year offset from the earliest flow. -/
structure YearFlow where
  amount : ℚ
  years : ℚ
deriving DecidableEq

/-- `FinanceUtils.calculateNPV(flows, rate)`:
`flows.reduce((npv, flow) => npv + flow.amount / Math.pow(1 + rate, flow.years), 0)`. -/
def calculateNPV (flows : List YearFlow) (rate : ℚ) : ℚ :=
  flows.foldl (fun npv f => npv + f.amount / mathPow (1 + rate) f.years) 0

/-- `FinanceUtils.calculateDerivativeNPV(flows, rate)`:
`flows.reduce((d, flow) => d - flow.years * flow.amount / Math.pow(1 + rate, flow.years + 1), 0)`. -/
def calculateDerivativeNPV (flows : List YearFlow) (rate : ℚ) : ℚ :=
  flows.foldl (fun d f => d - f.years * f.amount / mathPow (1 + rate) (f.years + 1)) 0

/-- The Newton–Raphson loop of `calculateIRR`, with the remaining iteration
count as explicit fuel (`maxIterations` at the first call).  Each step
computes `npv` and `dnpv`; if `|npv| < tolerance` the current rate is
returned as a percentage, if `dnpv === 0` the loop breaks and the current
rate is returned as a percentage, otherwise the rate is updated to
`rate - npv / dnpv`.  When the fuel is exhausted the loop falls through and
the last rate is returned as a percentage. -/
def irrLoop (flows : List YearFlow) (tolerance : ℚ) : ℚ → ℕ → ℚ
  | rate, 0 => rate * 100
  | rate, n + 1 =>
    let npv := calculateNPV flows rate
    let dnpv := calculateDerivativeNPV flows rate
    if |npv| < tolerance then rate * 100
    else if dnpv = 0 then rate * 100
    else irrLoop flows tolerance (rate - npv / dnpv) n

/-- Ascending-by-date comparison used by
`cashFlows.sort((a, b) => new Date(a.date) - new Date(b.date))`. -/
def dateLE (a b : CashFlow) : Prop := a.date ≤ b.date

instance : DecidableRel dateLE := fun a b => inferInstanceAs (Decidable (a.date ≤ b.date))

instance : IsTotal CashFlow dateLE := ⟨fun a b => le_total a.date b.date⟩

instance : IsTrans CashFlow dateLE := ⟨fun _ _ _ h h' => le_trans h h'⟩

/-- The stable ascending sort performed in place by
`cashFlows.sort((a, b) => new Date(a.date) - new Date(b.date))`. -/
def sortByDate (cashFlows : List CashFlow) : List CashFlow :=
  List.insertionSort dateLE cashFlows

/-- `FinanceUtils.calculateIRR(cashFlows, guess = 0.1, tolerance = 0.0001,
maxIterations = 100)` together with the final state of the caller's
`cashFlows` array.  `Array.prototype.sort` sorts in place, so once the
length guard is passed the caller's array is left in ascending date order.
First component: the returned rate, in percent; second component: the
caller's array as observed after the call (unchanged when
`cashFlows.length < 2`, since the function returns before sorting). -/
def calculateIRRFull (cashFlows : List CashFlow) (guess tolerance : ℚ)
    (maxIterations : ℕ) : ℚ × List CashFlow :=
  if cashFlows.length < 2 then (0, cashFlows)
  else
    let sortedFlows := sortByDate cashFlows
    let startDate := (sortedFlows.headD ⟨0, 0⟩).date
    let flows := sortedFlows.map fun f => YearFlow.mk f.amount (yearsBetween startDate f.date)
    (irrLoop flows tolerance guess maxIterations, sortedFlows)

/-- `FinanceUtils.calculateIRR`: the returned value alone. -/
def calculateIRR (cashFlows : List CashFlow) (guess tolerance : ℚ)
    (maxIterations : ℕ) : ℚ :=
  (calculateIRRFull cashFlows guess tolerance maxIterations).1

/-- `FinanceUtils.calculateDPI(totalDistributions, totalInvestments)`:
returns 0 when `totalInvestments === 0`, else the ratio. -/
def calculateDPI (totalDistributions totalInvestments : ℚ) : ℚ :=
  if totalInvestments = 0 then 0 else totalDistributions / totalInvestments

/-- `FinanceUtils.calculateAnnualizedReturn(startValue, endValue, years)`:
returns 0 when `startValue === 0 || years === 0`, else
`(Math.pow(endValue / startValue, 1 / years) - 1) * 100`. -/
def calculateAnnualizedReturn (startValue endValue years : ℚ) : ℚ :=
  if startValue = 0 ∨ years = 0 then 0
  else (mathPow (endValue / startValue) (1 / years) - 1) * 100

/-- The parsed values of the basic-parameter form read by `saveBasicParams`
in `src/static/app.js`.  A numeric field holds `none` when `parseFloat` /
`parseInt` returned `NaN` (empty or non-numeric input). -/
structure BasicForm where
  investment_target : String
  investment_amount : Option ℚ
  investment_period : Option ℤ
  hurdle_rate : Option ℚ
  management_carry : Option ℚ
deriving DecidableEq

/-- The validation performed by `saveBasicParams`, in source order: the
target name must be truthy (non-empty); `investment_amount` must not be
`NaN` and must be `> 0`; `investment_period` must not be `NaN`, `> 0` and
`≤ 30`; `hurdle_rate` must not be `NaN` and must lie in `[0, 100]`;
`management_carry` must not be `NaN` and must lie in `[0, 100]`. -/
def basicFormValid (f : BasicForm) : Bool :=
  decide (f.investment_target ≠ "") &&
  (match f.investment_amount with
   | none => false
   | some a => decide (0 < a)) &&
  (match f.investment_period with
   | none => false
   | some p => decide (0 < p) && decide (p ≤ 30)) &&
  (match f.hurdle_rate with
   | none => false
   | some r => decide (0 ≤ r) && decide (r ≤ 100)) &&
  (match f.management_carry with
   | none => false
   | some c => decide (0 ≤ c) && decide (c ≤ 100))

/-- `saveBasicParams`, as a transition on the stored
`AppState.basicParams`: given the previously stored parameters and the form
contents, it returns the stored parameters after the call together with
whether the save succeeded (on success the form bundle is stored and the UI
advances to the cash-flow step).  On any validation failure the handler
returns before `AppState.basicParams` is assigned, so the stored parameters
are unchanged and nothing is partially saved. -/
def saveBasicParams (stored : Option BasicForm) (f : BasicForm) :
    Option BasicForm × Bool :=
  if basicFormValid f then (some f, true) else (stored, false)

/-- The five distribution modes selectable in `selectMode`
(`src/static/app.js`). -/
inductive Mode
  | flat_priority_repayment
  | flat_periodic_distribution
  | structured_senior_subordinate
  | structured_mezzanine
  | structured_interest_principal
deriving DecidableEq

/-- The state read by `calculate()` in `src/static/app.js`: the selected
mode (`none` when no mode has been chosen) and the parsed mode-specific
inputs (`none` models a `parseFloat` result of `NaN`).  The source field
names are `periodicRate`, `seniorRatio`, `mezzSeniorRatio`, `mezzRatio`,
`mezzRate`, `ipSeniorRatio`, `ipSubordinateRate`. -/
structure CalcForm where
  mode : Option Mode
  periodicRate : Option ℚ
  seniorShare : Option ℚ
  mezzSeniorShare : Option ℚ
  mezzShare : Option ℚ
  mezzRate : Option ℚ
  ipSeniorShare : Option ℚ
  ipSubRate : Option ℚ
deriving DecidableEq

/-- The mode-parameter validation performed by `calculate()`:
no selected mode fails; `flat_periodic_distribution` requires
`0 ≤ periodicRate ≤ 100`; `structured_senior_subordinate` requires
`0 < seniorRatio < 100`; `structured_mezzanine` requires all three inputs
parsed and `mezzSeniorRatio + mezzRatio < 100`; and
`structured_interest_principal` requires both inputs parsed.
`flat_priority_repayment` has no mode parameters. -/
def calculateValid (f : CalcForm) : Bool :=
  match f.mode with
  | none => false
  | some Mode.flat_priority_repayment => true
  | some Mode.flat_periodic_distribution =>
    match f.periodicRate with
    | none => false
    | some r => decide (0 ≤ r) && decide (r ≤ 100)
  | some Mode.structured_senior_subordinate =>
    match f.seniorShare with
    | none => false
    | some r => decide (0 < r) && decide (r < 100)
  | some Mode.structured_mezzanine =>
    match f.mezzSeniorShare, f.mezzShare, f.mezzRate with
    | some s, some m, some _ => decide (s + m < 100)
    | _, _, _ => false
  | some Mode.structured_interest_principal =>
    f.ipSeniorShare.isSome && f.ipSubRate.isSome

/-- `calculate()`, as a transition on the stored `AppState.modeParams`:
given the previously stored mode parameters and the current form, it
returns the stored mode parameters after the call together with the
payload submitted to `/api/calculate`, if any.  When validation fails the
handler shows an error and returns before `AppState.modeParams` is
assigned and before any request is sent, so no computation is submitted
and no result (`AppState.calculationResult`) can be produced. -/
def calculate (storedModeParams : Option CalcForm) (f : CalcForm) :
    Option CalcForm × Option CalcForm :=
  if calculateValid f then (some f, some f) else (storedModeParams, none)

/-- A JavaScript value as scrutinised by `safeCalculatePercentage` in the
charts module: a finite number, `NaN`, `+Infinity`, `-Infinity`, or a value
whose `typeof` is not `"number"`. -/
inductive JSVal
  | num (value : ℚ)
  | nan
  | posInf
  | negInf
  | notNum
deriving DecidableEq

/-- The guard `typeof v === 'number' && !isNaN(v) && isFinite(v)`. -/
def isFiniteNumber : JSVal → Bool
  | JSVal.num _ => true
  | _ => false

/-- `safeCalculatePercentage(numerator, denominator)` from the charts
module: 0 when the numerator is not a finite number; 0 when the
denominator is not a finite number or is 0; otherwise
`(numerator / denominator) * 100`.  The function ends with a redundant
`isNaN(result) || !isFinite(result)` guard; in the rational model the
quotient of finite numbers with non-zero denominator is always finite, so
that guard is the identity and the result is returned as computed. -/
def safeCalculatePercentage (numerator denominator : JSVal) : ℚ :=
  match numerator with
  | JSVal.num n =>
    match denominator with
    | JSVal.num d => if d = 0 then 0 else n / d * 100
    | _ => 0
  | _ => 0

/-- A cash-flow record as consumed by `processCashFlowData` in the charts
module: a date (epoch milliseconds), an amount, and a type tag
(`'investment'`, `'capital_call'`, `'distribution'`, `'exit'`, ...). -/
structure ChartFlow where
  date : ℤ
  amount : ℚ
  type : String
deriving DecidableEq

/-- The four series returned by `processCashFlowData`.  The source fills
`labels` with each sorted flow's date formatted via `toLocaleDateString`;
the model keeps the raw date value, one label per flow. -/
structure ChartData where
  labels : List ℤ
  cumulativeInvestment : List ℚ
  cumulativeReturn : List ℚ
  netCashFlow : List ℚ
deriving DecidableEq

/-- Ascending-by-date comparison used by the sort in `processCashFlowData`. -/
def chartDateLE (a b : ChartFlow) : Prop := a.date ≤ b.date

instance : DecidableRel chartDateLE := fun a b => inferInstanceAs (Decidable (a.date ≤ b.date))

/-- The stable in-place sort
`cashFlows.sort((a, b) => new Date(a.date) - new Date(b.date))` at the top
of `processCashFlowData`. -/
def sortChartFlows (flows : List ChartFlow) : List ChartFlow :=
  List.insertionSort chartDateLE flows

/-- The accumulation loop of `processCashFlowData`: walks the sorted flows
carrying `totalInvestment` and `totalReturn`; a flow of type
`'investment'` or `'capital_call'` adds to `totalInvestment`, else a flow
of type `'distribution'` or `'exit'` adds to `totalReturn`; after each
flow the current totals and their difference are appended to the series. -/
def processAux (totalInvestment totalReturn : ℚ) :
    List ChartFlow → ChartData
  | [] => ⟨[], [], [], []⟩
  | f :: fs =>
    let totals :=
      if f.type = "investment" ∨ f.type = "capital_call" then
        (totalInvestment + f.amount, totalReturn)
      else if f.type = "distribution" ∨ f.type = "exit" then
        (totalInvestment, totalReturn + f.amount)
      else (totalInvestment, totalReturn)
    let rest := processAux totals.1 totals.2 fs
    ⟨f.date :: rest.labels,
     totals.1 :: rest.cumulativeInvestment,
     totals.2 :: rest.cumulativeReturn,
     (totals.2 - totals.1) :: rest.netCashFlow⟩

/-- `processCashFlowData(cashFlows)`: sorts the flows by date, then runs
the accumulation loop with both totals starting at 0. -/
def processCashFlowData (cashFlows : List ChartFlow) : ChartData :=
  processAux 0 0 (sortChartFlows cashFlows)

/-- Modelled from the spec: the Payback Analyzer lives in the server-side
Python backend, which is absent from the repository snapshot (the frontend
only renders `core_metrics.static_payback_period`).  Per §4.4 and the
cumulative-cash-flow feature document, the cumulative undiscounted net
cash flow series starts at `-investment_amount` and adds each period's net
flow in order. -/
def cumulativeNetCashFlow (investment_amount : ℚ) (flows : List ℚ) : List ℚ :=
  List.scanl (· + ·) (-investment_amount) flows

/-- Modelled from the spec: the recursion behind the static payback
period.  `cum` is the cumulative net cash flow through the previous
period, `prevYears` that period's index; the first period whose flow
brings the cumulative value to `≥ 0` yields the linearly interpolated
fractional year `prevYears + (-cum) / flow`. -/
def staticPaybackAux (cum : ℚ) (prevYears : ℕ) : List ℚ → Option ℚ
  | [] => none
  | f :: fs =>
    if 0 ≤ cum + f then some ((prevYears : ℚ) + (-cum) / f)
    else staticPaybackAux (cum + f) (prevYears + 1) fs

/-- Modelled from the spec: the static payback period — the first period
index at which the cumulative undiscounted net cash flow (starting at
`-investment_amount`) turns non-negative, linearly interpolated within
that period using that period's flow; `none` when the investment is never
recovered within the horizon. -/
def staticPaybackPeriod (investment_amount : ℚ) (flows : List ℚ) : Option ℚ :=
  staticPaybackAux (-investment_amount) 0 flows

/-- The contribution of one flow to the cumulative-investment series of
`processCashFlowData`: its amount when its type is `'investment'` or
`'capital_call'`, else 0. -/
def investmentAmount (f : ChartFlow) : ℚ :=
  if f.type = "investment" ∨ f.type = "capital_call" then f.amount else 0

/-- The contribution of one flow to the cumulative-return series of
`processCashFlowData`: its amount when its type is `'distribution'` or
`'exit'`, else 0. -/
def returnAmount (f : ChartFlow) : ℚ :=
  if f.type = "distribution" ∨ f.type = "exit" then f.amount else 0

/-- Running totals of a list from a start value: element `i` is
`start + x 0 + ... + x i`. -/
def runningTotals (start : ℚ) : List ℚ → List ℚ
  | [] => []
  | x :: xs => (start + x) :: runningTotals (start + x) xs

/-! ### Helper lemmas for the worked IRR example -/

/-- Sorting the already date-ordered example stream leaves it unchanged. -/
lemma sortByDate_examplePair :
    sortByDate [⟨0, -1000⟩, ⟨31557600000, 1100⟩] =
      [⟨0, -1000⟩, ⟨31557600000, 1100⟩] := by
  simp [sortByDate, List.insertionSort, List.orderedInsert, dateLE]

/-- The example stream has zero net present value at a 10% rate. -/
lemma calculateNPV_examplePair :
    calculateNPV [⟨-1000, 0⟩, ⟨1100, 1⟩] (10 / 100) = 0 := by
  norm_num [calculateNPV, mathPow, List.foldl]

/-- C1: for the two-flow stream (−1000 at year offset 0, +1100 at year
offset 1, the second date lying exactly 365.25 days after the first),
`calculateIRR` with its default parameters (guess 0.1, tolerance 1e-4,
maxIterations 100) converges and returns exactly 10 (percent); the
returned percentage `r` satisfies `|NPV(flows, r/100)| < 1e-4`. -/
theorem calculateIRR_example_ten_percent :
    calculateIRR [⟨0, -1000⟩, ⟨31557600000, 1100⟩] (1/10) (1/10000) 100 = 10 ∧
    |calculateNPV [⟨-1000, 0⟩, ⟨1100, 1⟩]
        (calculateIRR [⟨0, -1000⟩, ⟨31557600000, 1100⟩] (1/10) (1/10000) 100 / 100)|
      < 1/10000 := by
  have hmain :
      calculateIRR [⟨0, -1000⟩, ⟨31557600000, 1100⟩] (1/10) (1/10000) 100 = 10 := by
    have hflows : (sortByDate [⟨0, -1000⟩, ⟨31557600000, 1100⟩]).map
        (fun f => YearFlow.mk f.amount
          (yearsBetween
            (((sortByDate [⟨0, -1000⟩, ⟨31557600000, 1100⟩]).headD ⟨0, 0⟩).date)
            f.date))
        = [⟨-1000, 0⟩, ⟨1100, 1⟩] := by
      rw [sortByDate_examplePair]
      norm_num [yearsBetween, msPerYear]
    have hnpv : calculateNPV [⟨-1000, 0⟩, ⟨1100, 1⟩] (1/10) = 0 := by
      have h10 : (1 : ℚ)/10 = 10/100 := by norm_num
      rw [h10, calculateNPV_examplePair]
    rw [calculateIRR, calculateIRRFull, if_neg (by decide)]
    show irrLoop ((sortByDate [⟨0, -1000⟩, ⟨31557600000, 1100⟩]).map
        (fun f => YearFlow.mk f.amount
          (yearsBetween
            (((sortByDate [⟨0, -1000⟩, ⟨31557600000, 1100⟩]).headD ⟨0, 0⟩).date)
            f.date)))
        (1/10000) (1/10) (99+1) = 10
    rw [hflows, irrLoop, hnpv]
    norm_num
  refine ⟨hmain, ?_⟩
  rw [hmain, calculateNPV_examplePair]
  norm_num

/-- C2: `calculateIRR` is total and its iteration is bounded: a cash-flow
list with fewer than 2 entries immediately yields 0; when the iteration
fuel is exhausted (`maxIterations` steps performed without satisfying
`|NPV(rate)| < tolerance`) the loop still returns the last rate as a
percentage; and if the NPV derivative is exactly 0 at a step whose NPV
test failed, the loop halts early and returns the current rate as a
percentage. -/
theorem calculateIRR_terminates :
    (∀ (cashFlows : List CashFlow) (guess tolerance : ℚ) (maxIterations : ℕ),
      cashFlows.length < 2 →
      calculateIRR cashFlows guess tolerance maxIterations = 0) ∧
    (∀ (flows : List YearFlow) (tolerance rate : ℚ),
      irrLoop flows tolerance rate 0 = rate * 100) ∧
    (∀ (flows : List YearFlow) (tolerance rate : ℚ) (n : ℕ),
      ¬ |calculateNPV flows rate| < tolerance →
      calculateDerivativeNPV flows rate = 0 →
      irrLoop flows tolerance rate (n + 1) = rate * 100) := by
  refine ⟨?_, ?_, ?_⟩
  · intro cashFlows guess tolerance maxIterations h
    rw [calculateIRR, calculateIRRFull, if_pos h]
  · intro flows tolerance rate
    rw [irrLoop]
  · intro flows tolerance rate n hnpv hdnpv
    rw [irrLoop]
    simp only [if_neg hnpv, if_pos hdnpv]

/-- Witness for `calculateIRR_terminates` at concrete inputs: a single-flow
list returns 0; fuel 0 returns the rate as a percentage; and a flow list
whose NPV derivative vanishes (all year offsets 0) halts at the first step
of a fresh iteration budget. -/
theorem calculateIRR_terminates_witness :
    calculateIRR [⟨0, 5⟩] (1/10) (1/10000) 100 = 0 ∧
    irrLoop [⟨5, 0⟩, ⟨7, 0⟩] (1/10000) (1/10) 0 = (1/10) * 100 ∧
    irrLoop [⟨5, 0⟩, ⟨7, 0⟩] (1/10000) (1/10) (3 + 1) = (1/10) * 100 :=
  ⟨calculateIRR_terminates.1 [⟨0, 5⟩] (1/10) (1/10000) 100 (by decide),
   calculateIRR_terminates.2.1 [⟨5, 0⟩, ⟨7, 0⟩] (1/10000) (1/10),
   calculateIRR_terminates.2.2 [⟨5, 0⟩, ⟨7, 0⟩] (1/10000) (1/10) 3
     (by norm_num [calculateNPV, mathPow, List.foldl])
     (by norm_num [calculateDerivativeNPV, mathPow, List.foldl])⟩

/-- C3 counterexample: `calculateIRR` does not leave the caller's
`cashFlows` array in its original element order.  `Array.prototype.sort`
sorts in place, so for a stream whose flows are not already in date order
the caller's array is reordered by the call: with the +1100 flow dated
after the −1000 flow but listed first, the array observed after the call
is the date-sorted list, not the original. -/
theorem calculateIRR_reorders_argument :
    (calculateIRRFull [⟨1000, 1100⟩, ⟨0, -1000⟩] (1/10) (1/10000) 100).2 ≠
      [⟨1000, 1100⟩, ⟨0, -1000⟩] := by
  rw [calculateIRRFull, if_neg (by decide)]
  show sortByDate [⟨1000, 1100⟩, ⟨0, -1000⟩] ≠ [⟨1000, 1100⟩, ⟨0, -1000⟩]
  have hsort : sortByDate [⟨1000, 1100⟩, ⟨0, -1000⟩] = [⟨0, -1000⟩, ⟨1000, 1100⟩] := by
    simp [sortByDate, List.insertionSort, List.orderedInsert, dateLE]
  rw [hsort]
  decide

/-- C3 amended: the metrics functions are deterministic (they are modelled
as pure functions of their inputs, so identical inputs give identical
results), and `calculateNPV`, `calculateDPI` and `calculateAnnualizedReturn`
do not touch their arguments; `calculateIRR`, however, stably sorts the
caller's `cashFlows` array in place into ascending date order.  After the
call the caller's array is a permutation of the original, it is in
ascending date order, and it is unchanged exactly when the original was
already date-sorted (in particular when it has fewer than 2 entries). -/
theorem calculateIRR_argument_after_call :
    (∀ (cashFlows : List CashFlow) (guess tolerance : ℚ) (maxIterations : ℕ),
      ((calculateIRRFull cashFlows guess tolerance maxIterations).2).Perm cashFlows) ∧
    (∀ (cashFlows : List CashFlow) (guess tolerance : ℚ) (maxIterations : ℕ),
      List.Sorted dateLE cashFlows →
      (calculateIRRFull cashFlows guess tolerance maxIterations).2 = cashFlows) ∧
    (∀ (cashFlows : List CashFlow) (guess tolerance : ℚ) (maxIterations : ℕ),
      List.Sorted dateLE (calculateIRRFull cashFlows guess tolerance maxIterations).2) := by
  refine ⟨?_, ?_, ?_⟩
  · intro cashFlows guess tolerance maxIterations
    by_cases hlen : cashFlows.length < 2
    · rw [calculateIRRFull, if_pos hlen]
    · rw [calculateIRRFull, if_neg hlen]
      exact List.perm_insertionSort dateLE cashFlows
  · intro cashFlows guess tolerance maxIterations hsorted
    by_cases hlen : cashFlows.length < 2
    · rw [calculateIRRFull, if_pos hlen]
    · rw [calculateIRRFull, if_neg hlen]
      exact hsorted.insertionSort_eq
  · intro cashFlows guess tolerance maxIterations
    by_cases hlen : cashFlows.length < 2
    · rw [calculateIRRFull, if_pos hlen]
      match cashFlows, hlen with
      | [], _ => exact List.sorted_nil
      | [a], _ => exact List.sorted_singleton a
    · rw [calculateIRRFull, if_neg hlen]
      exact List.sorted_insertionSort dateLE cashFlows

/-- Witness for `calculateIRR_argument_after_call` on a concrete
date-sorted stream: the array after the call is a permutation of, equal
to, and as sorted as the input. -/
theorem calculateIRR_argument_after_call_witness :
    ((calculateIRRFull [⟨0, -1000⟩, ⟨1000, 1100⟩] (1/10) (1/10000) 100).2).Perm
      [⟨0, -1000⟩, ⟨1000, 1100⟩] ∧
    (calculateIRRFull [⟨0, -1000⟩, ⟨1000, 1100⟩] (1/10) (1/10000) 100).2 =
      [⟨0, -1000⟩, ⟨1000, 1100⟩] ∧
    List.Sorted dateLE (calculateIRRFull [⟨0, -1000⟩, ⟨1000, 1100⟩] (1/10) (1/10000) 100).2 :=
  ⟨calculateIRR_argument_after_call.1 [⟨0, -1000⟩, ⟨1000, 1100⟩] (1/10) (1/10000) 100,
   calculateIRR_argument_after_call.2.1 [⟨0, -1000⟩, ⟨1000, 1100⟩] (1/10) (1/10000) 100
     (by simp [List.sorted_cons, dateLE]),
   calculateIRR_argument_after_call.2.2 [⟨0, -1000⟩, ⟨1000, 1100⟩] (1/10) (1/10000) 100⟩

/-- C5: `calculateDPI` is total and guards division by zero: it returns 0
when `totalInvestments = 0` and the plain ratio otherwise; in particular
`DPI(0, X) = 0` for every `X > 0` and `DPI(X, 0) = 0` for every `X`. -/
theorem calculateDPI_spec :
    (∀ totalDistributions totalInvestments : ℚ, totalInvestments ≠ 0 →
      calculateDPI totalDistributions totalInvestments =
        totalDistributions / totalInvestments) ∧
    (∀ X : ℚ, 0 < X → calculateDPI 0 X = 0) ∧
    (∀ X : ℚ, calculateDPI X 0 = 0) := by
  refine ⟨?_, ?_, ?_⟩
  · intro d i hi
    rw [calculateDPI, if_neg hi]
  · intro X hX
    rw [calculateDPI, if_neg (ne_of_gt hX)]
    exact zero_div X
  · intro X
    rw [calculateDPI, if_pos rfl]

/-- Witness for `calculateDPI_spec` at concrete inputs. -/
theorem calculateDPI_spec_witness :
    calculateDPI 3 2 = 3 / 2 ∧ calculateDPI 0 5 = 0 ∧ calculateDPI 7 0 = 0 :=
  ⟨calculateDPI_spec.1 3 2 (by decide),
   calculateDPI_spec.2.1 5 (by decide),
   calculateDPI_spec.2.2 7⟩

/-- C6 counterexample: `calculateAnnualizedReturn` does not return
`(endValue/startValue)^(1/years) − 1`; it returns that quantity times 100
(a percentage).  At `startValue = 1`, `endValue = 4`, `years = 1` the
function returns 300 while the claimed expression evaluates to 3. -/
theorem calculateAnnualizedReturn_not_plain_ratio :
    calculateAnnualizedReturn 1 4 1 ≠ mathPow (4 / 1) (1 / 1) - 1 := by
  have hlhs : calculateAnnualizedReturn 1 4 1 = 300 := by
    norm_num [calculateAnnualizedReturn, mathPow]
  have hrhs : mathPow (4 / 1) (1 / 1) - 1 = 3 := by
    norm_num [mathPow]
  rw [hlhs, hrhs]
  norm_num

/-- C6 amended: for `startValue ≠ 0` and `years ≠ 0`,
`calculateAnnualizedReturn(startValue, endValue, years)` returns
`((endValue/startValue)^(1/years) − 1) × 100`, i.e. the annualized return
as a percentage; when `startValue = 0` or `years = 0` it returns 0 instead
of failing. -/
theorem calculateAnnualizedReturn_spec :
    (∀ startValue endValue years : ℚ, startValue ≠ 0 → years ≠ 0 →
      calculateAnnualizedReturn startValue endValue years =
        (mathPow (endValue / startValue) (1 / years) - 1) * 100) ∧
    (∀ endValue years : ℚ, calculateAnnualizedReturn 0 endValue years = 0) ∧
    (∀ startValue endValue : ℚ, calculateAnnualizedReturn startValue endValue 0 = 0) := by
  refine ⟨?_, ?_, ?_⟩
  · intro s e y hs hy
    rw [calculateAnnualizedReturn, if_neg]
    rintro (h | h)
    · exact hs h
    · exact hy h
  · intro e y
    rw [calculateAnnualizedReturn, if_pos (Or.inl rfl)]
  · intro s e
    rw [calculateAnnualizedReturn, if_pos (Or.inr rfl)]

/-- Witness for `calculateAnnualizedReturn_spec` at concrete inputs. -/
theorem calculateAnnualizedReturn_spec_witness :
    calculateAnnualizedReturn 1 4 1 = (mathPow (4 / 1) (1 / 1) - 1) * 100 ∧
    calculateAnnualizedReturn 0 4 1 = 0 ∧
    calculateAnnualizedReturn 1 4 0 = 0 :=
  ⟨calculateAnnualizedReturn_spec.1 1 4 1 (by decide) (by decide),
   calculateAnnualizedReturn_spec.2.1 4 1,
   calculateAnnualizedReturn_spec.2.2 1 4⟩

/-- C4: for investment_amount 10000 and net flows [2000, 3000, 2500, 1500,
4000], the cumulative undiscounted net cash flow series (starting at
−investment_amount) is [−10000, −8000, −5000, −2500, −1000, 3000]; the
static payback period is 17/4 = 4.25 years, which equals the linear
interpolation 4 + 1000/4000 and lies strictly between 4 and 5.  The
distribution mode and the hurdle/carry percentages do not enter the
undiscounted cumulative computation. -/
theorem staticPayback_scenario :
    cumulativeNetCashFlow 10000 [2000, 3000, 2500, 1500, 4000] =
      [-10000, -8000, -5000, -2500, -1000, 3000] ∧
    staticPaybackPeriod 10000 [2000, 3000, 2500, 1500, 4000] = some (17/4) ∧
    (4 : ℚ) < 17/4 ∧ (17 : ℚ)/4 < 5 ∧ (17 : ℚ)/4 = 4 + 1000/4000 := by
  refine ⟨?_, ?_, by norm_num, by norm_num, by norm_num⟩
  · norm_num [cumulativeNetCashFlow, List.scanl]
  · norm_num [staticPaybackPeriod, staticPaybackAux]

/-- C7 counterexample: `saveBasicParams` does not accept every bundle
satisfying the claimed condition (positive amount, integer period in
[1, 30], hurdle_rate ≥ 0, management_carry in [0, 100]): a form with
hurdle_rate 150 satisfies the claimed condition but is rejected, because
the handler also requires hurdle_rate ≤ 100. -/
theorem saveBasicParams_claim_false :
    ¬ (basicFormValid ⟨"A", some 1000, some 5, some 150, some 20⟩ = true ↔
        ((0 : ℚ) < 1000 ∧ (0 : ℤ) < 5 ∧ (5 : ℤ) ≤ 30 ∧
         (0 : ℚ) ≤ 150 ∧ (0 : ℚ) ≤ 20 ∧ (20 : ℚ) ≤ 100)) := by
  decide

/-- C7 amended: `saveBasicParams` accepts (saves the bundle and advances)
if and only if the target name is non-empty, investment_amount parses and
is positive, investment_period parses and is an integer with
0 < period ≤ 30, hurdle_rate parses and lies in [0, 100] (the claim's
"≥ 0" omits the upper bound the handler enforces), and management_carry
parses and lies in [0, 100]; on any violation it reports an error and the
stored parameters are unchanged (no partial save). -/
theorem saveBasicParams_validation :
    (∀ f : BasicForm,
      basicFormValid f = true ↔
        (f.investment_target ≠ "" ∧
         (∃ a, f.investment_amount = some a ∧ 0 < a) ∧
         (∃ p, f.investment_period = some p ∧ 0 < p ∧ p ≤ 30) ∧
         (∃ r, f.hurdle_rate = some r ∧ 0 ≤ r ∧ r ≤ 100) ∧
         (∃ c, f.management_carry = some c ∧ 0 ≤ c ∧ c ≤ 100))) ∧
    (∀ (stored : Option BasicForm) (f : BasicForm), basicFormValid f = false →
      saveBasicParams stored f = (stored, false)) ∧
    (∀ (stored : Option BasicForm) (f : BasicForm), basicFormValid f = true →
      saveBasicParams stored f = (some f, true)) := by
  refine ⟨?_, ?_, ?_⟩
  · intro f
    obtain ⟨t, a, p, r, c⟩ := f
    cases a <;> cases p <;> cases r <;> cases c <;>
      simp [basicFormValid, and_assoc]
  · intro stored f h
    rw [saveBasicParams, if_neg (by simp [h])]
  · intro stored f h
    rw [saveBasicParams, if_pos (by simp [h])]

/-- Witness for `saveBasicParams_validation` at concrete forms: a valid
form is saved; an invalid form (empty target) leaves the stored state
unchanged; and the acceptance condition instantiates. -/
theorem saveBasicParams_validation_witness :
    (basicFormValid ⟨"A", some 1000, some 5, some 8, some 20⟩ = true ↔
      (("A" : String) ≠ "" ∧
       (∃ a, (some (1000 : ℚ) : Option ℚ) = some a ∧ 0 < a) ∧
       (∃ p, (some (5 : ℤ) : Option ℤ) = some p ∧ 0 < p ∧ p ≤ 30) ∧
       (∃ r, (some (8 : ℚ) : Option ℚ) = some r ∧ 0 ≤ r ∧ r ≤ 100) ∧
       (∃ c, (some (20 : ℚ) : Option ℚ) = some c ∧ 0 ≤ c ∧ c ≤ 100))) ∧
    saveBasicParams none ⟨"", some 1000, some 5, some 8, some 20⟩ = (none, false) ∧
    saveBasicParams none ⟨"A", some 1000, some 5, some 8, some 20⟩ =
      (some ⟨"A", some 1000, some 5, some 8, some 20⟩, true) :=
  ⟨saveBasicParams_validation.1 ⟨"A", some 1000, some 5, some 8, some 20⟩,
   saveBasicParams_validation.2.1 none ⟨"", some 1000, some 5, some 8, some 20⟩ (by decide),
   saveBasicParams_validation.2.2 none ⟨"A", some 1000, some 5, some 8, some 20⟩ (by decide)⟩

/-- Invalid configuration makes `calculate()` return without storing mode
parameters or submitting a request. -/
lemma calculate_of_invalid (stored : Option CalcForm) (f : CalcForm)
    (h : calculateValid f = false) : calculate stored f = (stored, none) := by
  rw [calculate, if_neg (by simp [h])]

/-- C8: `calculate()` fails fast on invalid configuration, before any
computation: when no mode is selected, or a mode-specific parameter is
missing (`parseFloat` gave `NaN`) or out of range — periodic rate outside
[0, 100] for flat periodic distribution, senior share not strictly
between 0 and 100 for structured senior/subordinate, any missing
parameter or senior + mezzanine share ≥ 100 for structured mezzanine, any
missing parameter for structured interest/principal — the handler reports
an error and returns with the stored mode parameters unchanged and no
request submitted, so no partial ledger or result can be produced. -/
theorem calculate_fails_fast :
    (∀ (stored : Option CalcForm) (f : CalcForm), f.mode = none →
      calculate stored f = (stored, none)) ∧
    (∀ (stored : Option CalcForm) (f : CalcForm),
      f.mode = some Mode.flat_periodic_distribution →
      (∀ r, f.periodicRate = some r → r < 0 ∨ 100 < r) →
      calculate stored f = (stored, none)) ∧
    (∀ (stored : Option CalcForm) (f : CalcForm),
      f.mode = some Mode.structured_senior_subordinate →
      (∀ r, f.seniorShare = some r → r ≤ 0 ∨ 100 ≤ r) →
      calculate stored f = (stored, none)) ∧
    (∀ (stored : Option CalcForm) (f : CalcForm),
      f.mode = some Mode.structured_mezzanine →
      (f.mezzSeniorShare = none ∨ f.mezzShare = none ∨ f.mezzRate = none ∨
        (∃ s m, f.mezzSeniorShare = some s ∧ f.mezzShare = some m ∧ 100 ≤ s + m)) →
      calculate stored f = (stored, none)) ∧
    (∀ (stored : Option CalcForm) (f : CalcForm),
      f.mode = some Mode.structured_interest_principal →
      (f.ipSeniorShare = none ∨ f.ipSubRate = none) →
      calculate stored f = (stored, none)) := by
  refine ⟨?_, ?_, ?_, ?_, ?_⟩
  · intro stored f hmode
    exact calculate_of_invalid stored f (by simp [calculateValid, hmode])
  · intro stored f hmode hbad
    refine calculate_of_invalid stored f ?_
    simp only [calculateValid, hmode]
    cases hr : f.periodicRate with
    | none => rfl
    | some r =>
      rcases hbad r hr with h | h
      · have hn : ¬ (0 ≤ r) := not_le.2 h
        simp [hn]
      · have hn : ¬ (r ≤ 100) := not_le.2 h
        simp [hn]
  · intro stored f hmode hbad
    refine calculate_of_invalid stored f ?_
    simp only [calculateValid, hmode]
    cases hr : f.seniorShare with
    | none => rfl
    | some r =>
      rcases hbad r hr with h | h
      · have hn : ¬ (0 < r) := not_lt.2 h
        simp [hn]
      · have hn : ¬ (r < 100) := not_lt.2 h
        simp [hn]
  · intro stored f hmode hbad
    refine calculate_of_invalid stored f ?_
    simp only [calculateValid, hmode]
    cases hs : f.mezzSeniorShare with
    | none => rfl
    | some s =>
      cases hm : f.mezzShare with
      | none => rfl
      | some m =>
        cases hrt : f.mezzRate with
        | none => rfl
        | some rt =>
          rcases hbad with h | h | h | ⟨s', m', hs', hm', hsum⟩
          · rw [hs] at h; exact absurd h (by simp)
          · rw [hm] at h; exact absurd h (by simp)
          · rw [hrt] at h; exact absurd h (by simp)
          · rw [hs] at hs'; rw [hm] at hm'
            cases hs'; cases hm'
            simp [decide_eq_false_iff_not, not_lt, hsum]
  · intro stored f hmode hbad
    refine calculate_of_invalid stored f ?_
    simp only [calculateValid, hmode]
    rcases hbad with h | h <;> simp [h]

/-- Witness for `calculate_fails_fast` at concrete forms, one per invalid
configuration. -/
theorem calculate_fails_fast_witness :
    calculate none ⟨none, none, none, none, none, none, none, none⟩ = (none, none) ∧
    calculate none
      ⟨some Mode.flat_periodic_distribution, some 150, none, none, none, none, none, none⟩ =
      (none, none) ∧
    calculate none
      ⟨some Mode.structured_senior_subordinate, none, some 100, none, none, none, none, none⟩ =
      (none, none) ∧
    calculate none
      ⟨some Mode.structured_mezzanine, none, none, some 60, some 50, some 8, none, none⟩ =
      (none, none) ∧
    calculate none
      ⟨some Mode.structured_interest_principal, none, none, none, none, none, some 70, none⟩ =
      (none, none) :=
  ⟨calculate_fails_fast.1 none ⟨none, none, none, none, none, none, none, none⟩ rfl,
   calculate_fails_fast.2.1 none
     ⟨some Mode.flat_periodic_distribution, some 150, none, none, none, none, none, none⟩
     rfl (by intro r hr; cases hr; right; decide),
   calculate_fails_fast.2.2.1 none
     ⟨some Mode.structured_senior_subordinate, none, some 100, none, none, none, none, none⟩
     rfl (by intro r hr; cases hr; right; decide),
   calculate_fails_fast.2.2.2.1 none
     ⟨some Mode.structured_mezzanine, none, none, some 60, some 50, some 8, none, none⟩
     rfl (Or.inr (Or.inr (Or.inr ⟨60, 50, rfl, rfl, by norm_num⟩))),
   calculate_fails_fast.2.2.2.2 none
     ⟨some Mode.structured_interest_principal, none, none, none, none, none, some 70, none⟩
     rfl (Or.inr rfl)⟩

/-- C9: `safeCalculatePercentage` is total into the (finite) rationals and
guards every degenerate input: a numerator that is not a finite number
gives 0, a denominator that is not a finite number gives 0, a zero
denominator gives 0, and otherwise the result is
`(numerator / denominator) × 100`. -/
theorem safeCalculatePercentage_spec :
    (∀ numerator denominator : JSVal, isFiniteNumber numerator = false →
      safeCalculatePercentage numerator denominator = 0) ∧
    (∀ numerator denominator : JSVal, isFiniteNumber denominator = false →
      safeCalculatePercentage numerator denominator = 0) ∧
    (∀ a : ℚ, safeCalculatePercentage (JSVal.num a) (JSVal.num 0) = 0) ∧
    (∀ a b : ℚ, b ≠ 0 →
      safeCalculatePercentage (JSVal.num a) (JSVal.num b) = a / b * 100) := by
  refine ⟨?_, ?_, ?_, ?_⟩
  · intro n d h
    cases n with
    | num q => exact absurd h (by simp [isFiniteNumber])
    | nan => rfl
    | posInf => rfl
    | negInf => rfl
    | notNum => rfl
  · intro n d h
    cases n with
    | num q =>
      cases d with
      | num q' => exact absurd h (by simp [isFiniteNumber])
      | nan => rfl
      | posInf => rfl
      | negInf => rfl
      | notNum => rfl
    | nan => rfl
    | posInf => rfl
    | negInf => rfl
    | notNum => rfl
  · intro a
    rw [safeCalculatePercentage]
    simp
  · intro a b hb
    rw [safeCalculatePercentage]
    simp [hb]

/-- Witness for `safeCalculatePercentage_spec` at concrete inputs. -/
theorem safeCalculatePercentage_spec_witness :
    safeCalculatePercentage JSVal.nan (JSVal.num 2) = 0 ∧
    safeCalculatePercentage (JSVal.num 3) JSVal.posInf = 0 ∧
    safeCalculatePercentage (JSVal.num 3) (JSVal.num 0) = 0 ∧
    safeCalculatePercentage (JSVal.num 3) (JSVal.num 2) = 3 / 2 * 100 :=
  ⟨safeCalculatePercentage_spec.1 JSVal.nan (JSVal.num 2) rfl,
   safeCalculatePercentage_spec.2.1 (JSVal.num 3) JSVal.posInf rfl,
   safeCalculatePercentage_spec.2.2.1 3,
   safeCalculatePercentage_spec.2.2.2 3 2 (by decide)⟩

/-- Running totals preserve length. -/
lemma runningTotals_length (l : List ℚ) : ∀ start : ℚ,
    (runningTotals start l).length = l.length := by
  induction l with
  | nil => intro start; rfl
  | cons x xs ih => intro start; simp [runningTotals, ih]

/-- First component of one accumulation step of `processCashFlowData`:
the investment total grows by the flow's `investmentAmount`. -/
lemma stepPair_fst (f : ChartFlow) (ti tr : ℚ) :
    (if f.type = "investment" ∨ f.type = "capital_call" then (ti + f.amount, tr)
     else if f.type = "distribution" ∨ f.type = "exit" then (ti, tr + f.amount)
     else (ti, tr)).1 = ti + investmentAmount f := by
  by_cases h1 : f.type = "investment" ∨ f.type = "capital_call"
  · simp [h1, investmentAmount]
  · by_cases h2 : f.type = "distribution" ∨ f.type = "exit" <;>
      simp [h1, h2, investmentAmount]

/-- Second component of one accumulation step of `processCashFlowData`:
the return total grows by the flow's `returnAmount` (the investment and
return type tags are mutually exclusive, so the `else if` matches the
simple guard). -/
lemma stepPair_snd (f : ChartFlow) (ti tr : ℚ) :
    (if f.type = "investment" ∨ f.type = "capital_call" then (ti + f.amount, tr)
     else if f.type = "distribution" ∨ f.type = "exit" then (ti, tr + f.amount)
     else (ti, tr)).2 = tr + returnAmount f := by
  by_cases h1 : f.type = "investment" ∨ f.type = "capital_call"
  · have h2 : ¬ (f.type = "distribution" ∨ f.type = "exit") := by
      rcases h1 with h | h <;> rw [h] <;> decide
    simp [h1, returnAmount, h2]
  · by_cases h2 : f.type = "distribution" ∨ f.type = "exit" <;>
      simp [h1, h2, returnAmount]

/-- The accumulation loop of `processCashFlowData`, characterised: labels
are the flow dates, the two cumulative series are running totals of the
type-filtered amounts, and the net series is their pointwise difference. -/
lemma processAux_characterization (flows : List ChartFlow) : ∀ ti tr : ℚ,
    (processAux ti tr flows).labels = flows.map (fun f => f.date) ∧
    (processAux ti tr flows).cumulativeInvestment =
      runningTotals ti (flows.map investmentAmount) ∧
    (processAux ti tr flows).cumulativeReturn =
      runningTotals tr (flows.map returnAmount) ∧
    (processAux ti tr flows).netCashFlow =
      List.zipWith (fun a b => a - b) (runningTotals tr (flows.map returnAmount))
        (runningTotals ti (flows.map investmentAmount)) := by
  induction flows with
  | nil => intro ti tr; exact ⟨rfl, rfl, rfl, rfl⟩
  | cons f fs ih =>
    intro ti tr
    have hfst := stepPair_fst f ti tr
    have hsnd := stepPair_snd f ti tr
    obtain ⟨ih1, ih2, ih3, ih4⟩ := ih (ti + investmentAmount f) (tr + returnAmount f)
    rw [processAux]
    refine ⟨?_, ?_, ?_, ?_⟩
    · simp only [hfst, hsnd, List.map, runningTotals]
      rw [hfst, hsnd] at *
      simp [ih1]
    · simp only [List.map, runningTotals]
      rw [hfst, hsnd]
      simp [ih2]
    · simp only [List.map, runningTotals]
      rw [hfst, hsnd]
      simp [ih3]
    · simp only [List.map, runningTotals, List.zipWith]
      rw [hfst, hsnd]
      simp [ih4]

/-- Pointwise difference through `getD` for equal-length lists. -/
lemma zipWith_sub_getD (xs : List ℚ) : ∀ (ys : List ℚ) (i : ℕ),
    xs.length = ys.length →
    (List.zipWith (fun a b => a - b) xs ys).getD i 0 = xs.getD i 0 - ys.getD i 0 := by
  induction xs with
  | nil =>
    intro ys i h
    have : ys = [] := List.length_eq_zero.1 h.symm
    subst this
    simp
  | cons x xs ih =>
    intro ys i h
    cases ys with
    | nil => simp at h
    | cons y ys =>
      cases i with
      | zero => rfl
      | succ i =>
        simp only [List.zipWith, List.getD_cons_succ]
        exact ih ys i (by simpa using h)

/-- C10: `processCashFlowData` returns four series of the same length as
the input; at every index the net cash flow equals the cumulative return
minus the cumulative investment; the cumulative-investment series is the
running total of the amounts of flows whose type is `'investment'` or
`'capital_call'`, and the cumulative-return series the running total of
the amounts of flows whose type is `'distribution'` or `'exit'` (both in
date-sorted order, as the function sorts its input first). -/
theorem processCashFlowData_spec (cashFlows : List ChartFlow) :
    (processCashFlowData cashFlows).labels.length = cashFlows.length ∧
    (processCashFlowData cashFlows).cumulativeInvestment.length = cashFlows.length ∧
    (processCashFlowData cashFlows).cumulativeReturn.length = cashFlows.length ∧
    (processCashFlowData cashFlows).netCashFlow.length = cashFlows.length ∧
    (∀ i : ℕ, (processCashFlowData cashFlows).netCashFlow.getD i 0 =
      (processCashFlowData cashFlows).cumulativeReturn.getD i 0 -
      (processCashFlowData cashFlows).cumulativeInvestment.getD i 0) ∧
    (processCashFlowData cashFlows).cumulativeInvestment =
      runningTotals 0 ((sortChartFlows cashFlows).map investmentAmount) ∧
    (processCashFlowData cashFlows).cumulativeReturn =
      runningTotals 0 ((sortChartFlows cashFlows).map returnAmount) := by
  obtain ⟨h1, h2, h3, h4⟩ :=
    processAux_characterization (sortChartFlows cashFlows) 0 0
  have hsortlen : (sortChartFlows cashFlows).length = cashFlows.length :=
    List.length_insertionSort chartDateLE cashFlows
  have hinvlen : (processCashFlowData cashFlows).cumulativeInvestment.length =
      cashFlows.length := by
    rw [processCashFlowData, h2, runningTotals_length]
    simp [hsortlen]
  have hretlen : (processCashFlowData cashFlows).cumulativeReturn.length =
      cashFlows.length := by
    rw [processCashFlowData, h3, runningTotals_length]
    simp [hsortlen]
  refine ⟨?_, hinvlen, hretlen, ?_, ?_, ?_, ?_⟩
  · rw [processCashFlowData, h1]
    simp [hsortlen]
  · rw [processCashFlowData, h4]
    rw [List.length_zipWith]
    rw [runningTotals_length, runningTotals_length]
    simp [hsortlen]
  · intro i
    rw [processCashFlowData, h4, h2, h3]
    refine zipWith_sub_getD _ _ i ?_
    rw [runningTotals_length, runningTotals_length]
    simp
  · rw [processCashFlowData, h2]
  · rw [processCashFlowData, h3]

end Fund
